import Mathlib

/-!
Shallow embedding of the payments gateway in src/src/apps/payments
(models.py, views.py, api_views.py, api_auth.py, webhook_dispatcher.py).

Monetary values (Python Decimal with 2 fractional digits) are embedded as
rationals; amounts reported by the upstream processor in minor units are
integers.  Database rows are lists; the upstream processor's JSON responses
are explicit records whose fields mirror the dictionary accesses performed
by the source.
-/

/-- Payment.Status choices (models.py). -/
inductive PStatus where
  | pending
  | success
  | failed
  | abandoned
deriving DecidableEq, Repr

/-- Payment.RefundStatus choices (models.py). -/
inductive RStatus where
  | noRefund
  | refundPending
  | partiallyRefunded
  | fullyRefunded
  | refundFailed
deriving DecidableEq, Repr

/-- The string value stored in the status column (models.py TextChoices). -/
def PStatus.toStr : PStatus → String
  | .pending => "pending"
  | .success => "success"
  | .failed => "failed"
  | .abandoned => "abandoned"

/-- A row of the Payment table (models.py, fields the lifecycle touches). -/
structure Payment where
  reference : String
  serviceId : Option Nat
  service_reference : String
  email : String
  name : String
  amount : ℚ
  currency : String
  description : String
  status : PStatus
  channel : String
  fees : ℚ
  paystack_id : String
  authorization_url : String
  callback_url : String
  refund_status : RStatus
  refunded_amount : ℚ
  paystack_refund_id : String
  idempotency_key : String
  webhook_delivered : Bool
deriving DecidableEq, Repr

/-- A row of the ServiceProduct table (models.py, fields the API layer touches). -/
structure ServiceProduct where
  id : Nat
  slug : String
  api_key : String
  api_secret : String
  webhook_url : String
  default_callback_url : String
  is_active : Bool
  allowed_currencies : List String
  allowed_ips : List String
deriving DecidableEq, Repr

/-- Python int() applied to an exact rational: truncation toward zero. -/
def pyTrunc (q : ℚ) : ℤ := if q < 0 then ⌈q⌉ else ⌊q⌋

/-- Python round() applied to an exact rational: nearest integer, ties to even. -/
def pyRound (q : ℚ) : ℤ :=
  let f := ⌊q⌋
  let r := q - f
  if r < 1 / 2 then f
  else if 1 / 2 < r then f + 1
  else if f % 2 = 0 then f else f + 1

/-- Payment.amount_in_kobo (models.py line 272): int(self.amount * 100). -/
def amount_in_kobo (p : Payment) : ℤ := pyTrunc (p.amount * 100)

/-- Payment.is_successful (models.py). -/
def is_successful (p : Payment) : Bool := p.status = PStatus.success

/-- Payment.refundable_amount (models.py): amount - refunded_amount. -/
def refundable_amount (p : Payment) : ℚ := p.amount - p.refunded_amount

/-- Payment.is_refundable (models.py): successful, refund status none or
partial, and a positive amount still refundable. -/
def is_refundable (p : Payment) : Bool :=
  is_successful p
    && (p.refund_status = RStatus.noRefund || p.refund_status = RStatus.partiallyRefunded)
    && decide (refundable_amount p > 0)

/-- The data object inside a Paystack verify response, as read by
VerifyPaymentView.get: the source accesses data.get("status"),
data.get("id", ""), data.get("channel", ""), data.get("fees", 0). -/
structure VerifyData where
  dstatus : Option String
  txId : String
  channel : String
  feesKobo : ℤ
deriving DecidableEq, Repr

/-- A Paystack verify-transaction response: ok is the truthiness of
result.get("status"); data is result.get("data") (absent key gives none,
which the source reads through .get("data", a default empty dict)). -/
structure VerifyResp where
  ok : Bool
  data : Option VerifyData
deriving DecidableEq, Repr

/-- result.get("data", empty).get("status") in VerifyPaymentView.get. -/
def VerifyResp.dataStatus (r : VerifyResp) : Option String :=
  match r.data with
  | some d => d.dstatus
  | none => none

/-- The state transition and outbound-dispatch decision of
VerifyPaymentView.get (views.py lines 109-129): on upstream success the
payment is set to success with processor id, channel and fees captured,
and payment.success is dispatched when the payment has a service; any
other upstream answer sets abandoned or failed.  The returned Bool is
whether dispatch_webhook was invoked with event payment.success. -/
def applyVerify (p : Payment) (r : VerifyResp) : Payment × Bool :=
  if r.ok = true ∧ r.dataStatus = some "success" then
    let d := r.data.getD ⟨none, "", "", 0⟩
    ({ p with
        status := PStatus.success
        paystack_id := d.txId
        channel := d.channel
        fees := (d.feesKobo : ℚ) / 100 },
      p.serviceId.isSome)
  else
    let st := r.dataStatus.getD "failed"
    ({ p with status := if st = "abandoned" then PStatus.abandoned else PStatus.failed },
      false)

/-- The data dict of a charge.success webhook event, as read by
PaystackWebhookView._handle_charge_success: data.get("reference", ""),
data.get("id", ""), data.get("channel", ""), data.get("fees", 0). -/
structure ChargeData where
  reference : String
  txId : String
  channel : String
  feesKobo : ℤ
deriving DecidableEq, Repr

/-- The state transition and dispatch decision of
PaystackWebhookView._handle_charge_success (views.py lines 182-194) once
the payment has been resolved: the payment is unconditionally set to
success and payment.success is dispatched when it has a service. -/
def applyChargeSuccess (p : Payment) (d : ChargeData) : Payment × Bool :=
  ({ p with
      status := PStatus.success
      paystack_id := d.txId
      channel := d.channel
      fees := (d.feesKobo : ℚ) / 100 },
    p.serviceId.isSome)

/-- An upstream create_refund response as read by APIRefundView.post and
PaymentRefundView.post: ok is the truthiness of result.get("status");
amountKobo is data.get("amount", 0); refundId is str(data.get("id", "")). -/
structure RefundResp where
  ok : Bool
  amountKobo : ℤ
  refundId : String
deriving DecidableEq, Repr

/-- The refund request body of APIRefundView.post: data.get("amount")
parsed as a two-decimal number (none when absent, meaning full refund),
and data.get("reason", ""). -/
structure RefundReq where
  amount : Option ℚ
  reason : String
deriving DecidableEq, Repr

/-- Observable outcome of one APIRefundView.post request: HTTP status,
the payment row afterwards, whether payment.refunded was dispatched, and
whether the upstream refund endpoint was invoked. -/
structure ApiRefundResult where
  code : Nat
  payment : Payment
  dispatched : Bool
  upstreamCalled : Bool
deriving DecidableEq, Repr

/-- The mutation both refund views perform on upstream success
(api_views.py lines 273-291, views.py lines 471-487): add the reported
minor-unit amount over 100 to refunded_amount, record the refund id, and
set refund_status to full when refunded_amount has reached amount, else
partial. -/
def applyRefundSuccess (p : Payment) (r : RefundResp) : Payment :=
  let newAmt := p.refunded_amount + (r.amountKobo : ℚ) / 100
  { p with
      refunded_amount := newAmt
      paystack_refund_id := r.refundId
      refund_status :=
        if newAmt ≥ p.amount then RStatus.fullyRefunded else RStatus.partiallyRefunded }

/-- The upstream call step of APIRefundView.post: on a truthy upstream
status apply the refund mutation and dispatch payment.refunded when the
payment has a service; otherwise answer 502 with the payment untouched. -/
def refundUpstreamStep (p : Payment) (r : RefundResp) : ApiRefundResult :=
  if r.ok = true then
    let p1 := applyRefundSuccess p r
    ⟨200, p1, p1.serviceId.isSome, true⟩
  else ⟨502, p, false, true⟩

/-- APIRefundView.post (api_views.py lines 233-319) after the payment has
been resolved for the authenticated tenant: 400 when not refundable, 400
when a provided amount is non-positive or exceeds refundable_amount,
otherwise the upstream refund call decides. -/
def apiRefund (p : Payment) (req : RefundReq) (upstream : RefundResp) : ApiRefundResult :=
  if is_refundable p = false then ⟨400, p, false, false⟩
  else
    match req.amount with
    | some a =>
        if a ≤ 0 ∨ refundable_amount p < a then ⟨400, p, false, false⟩
        else refundUpstreamStep p upstream
    | none => refundUpstreamStep p upstream

/-- The data dict of a refund.processed webhook event, as read by
PaystackWebhookView._handle_refund: data.transaction.reference (empty when
the transaction field is missing or not a dict), data.get("amount", 0),
str(data.get("id", "")). -/
structure RefundEventData where
  txReference : String
  amountKobo : ℤ
  refundId : String
deriving DecidableEq, Repr

/-- The mutation of PaystackWebhookView._handle_refund (views.py lines
208-215) once the payment has been resolved: overwrite refunded_amount
with the reported minor-unit amount over 100, record the refund id, set
refund_status to full when refunded_amount has reached amount, else
partial; dispatch payment.refunded when the payment has a service. -/
def applyRefundWebhook (p : Payment) (d : RefundEventData) : Payment × Bool :=
  let newAmt := (d.amountKobo : ℚ) / 100
  ({ p with
      refunded_amount := newAmt
      paystack_refund_id := d.refundId
      refund_status :=
        if newAmt ≥ p.amount then RStatus.fullyRefunded else RStatus.partiallyRefunded },
    p.serviceId.isSome)

/-- The spec's refund-field invariant (spec section 3): bounds on
refunded_amount and agreement between refund_status and refunded_amount. -/
def refundInvariant (p : Payment) : Prop :=
  0 ≤ p.refunded_amount ∧ p.refunded_amount ≤ p.amount
  ∧ (p.refund_status = RStatus.fullyRefunded ↔ p.refunded_amount = p.amount)
  ∧ (p.refund_status = RStatus.partiallyRefunded ↔
      0 < p.refunded_amount ∧ p.refunded_amount < p.amount)
  ∧ (p.refund_status = RStatus.noRefund ↔
      (p.refunded_amount = 0 ∧ p.refund_status ≠ RStatus.refundFailed))

/-- The parsed JSON body of an inbound Paystack webhook request:
payload.get("event", "") and the two field-readings (with the source's
defaults) that the charge.success and refund.processed handlers perform
on payload.get("data"). -/
structure WebhookPayload where
  event : String
  chargeData : ChargeData
  refundData : RefundEventData
deriving DecidableEq, Repr

/-- Replace the payment row holding the given reference (the persistence
effect of payment.asave on a row fetched by reference). -/
def updateByRef (payments : List Payment) (ref : String) (p1 : Payment) : List Payment :=
  payments.map fun q => if q.reference = ref then p1 else q

/-- PaystackWebhookView._handle_charge_success (views.py lines 170-194):
empty or unknown reference leaves the table untouched; otherwise the
resolved payment is overwritten with the success transition.  The Nat is
the number of payment.success dispatches triggered. -/
def handle_charge_success (payments : List Payment) (d : ChargeData) : List Payment × Nat :=
  if d.reference = "" then (payments, 0)
  else
    match payments.find? (fun p => p.reference = d.reference) with
    | none => (payments, 0)
    | some p =>
        let r := applyChargeSuccess p d
        (updateByRef payments d.reference r.1, if r.2 then 1 else 0)

/-- PaystackWebhookView._handle_refund (views.py lines 196-221): empty or
unknown transaction reference leaves the table untouched; otherwise the
resolved payment is overwritten with the refund mutation.  The Nat is the
number of payment.refunded dispatches triggered. -/
def handle_refund (payments : List Payment) (d : RefundEventData) : List Payment × Nat :=
  if d.txReference = "" then (payments, 0)
  else
    match payments.find? (fun p => p.reference = d.txReference) with
    | none => (payments, 0)
    | some p =>
        let r := applyRefundWebhook p d
        (updateByRef payments d.txReference r.1, if r.2 then 1 else 0)

/-- PaystackWebhookView.post (views.py lines 149-168): 400 on a bad
signature, 400 on a body that is not valid JSON, otherwise dispatch on the
event name and answer 200 whatever the handlers resolve.  Result: HTTP
status, the payment table afterwards, and the outbound dispatch count. -/
def webhookPost (sigValid : Bool) (body : Option WebhookPayload) (payments : List Payment) :
    Nat × List Payment × Nat :=
  if sigValid = false then (400, payments, 0)
  else
    match body with
    | none => (400, payments, 0)
    | some pl =>
        if pl.event = "charge.success" then (200, handle_charge_success payments pl.chargeData)
        else if pl.event = "refund.processed" then (200, handle_refund payments pl.refundData)
        else (200, payments, 0)

/-- The initiate request body of APIInitiatePaymentView.post (api_views.py
lines 30-38): amount is data.get("amount") parsed by round(float(.), 2) —
none models a missing or unparseable value; callback_url falls back to the
tenant's default when empty. -/
structure InitiateReq where
  email : String
  name : String
  amount : Option ℚ
  currency : String
  description : String
  service_reference : String
  callback_url : String
  idempotency_key : String
deriving DecidableEq, Repr

/-- dict(Payment.Currency.choices).keys(): the supported currency codes. -/
def currencyChoices : List String := ["KES", "USD", "NGN"]

/-- The validation block of APIInitiatePaymentView.post (api_views.py lines
40-58): true when the error map stays empty — email non-empty, amount a
positive number, currency supported and, when the tenant restricts
currencies, allowed. -/
def initiateValid (svc : ServiceProduct) (req : InitiateReq) : Bool :=
  decide (req.email ≠ "")
    && (match req.amount with
        | some a => decide (0 < a)
        | none => false)
    && decide (req.currency ∈ currencyChoices)
    && (decide (svc.allowed_currencies = []) || decide (req.currency ∈ svc.allowed_currencies))

/-- The upstream initialise_transaction response as read by
APIInitiatePaymentView.post: ok is the truthiness of result.get("status");
authorization_url is data.get("authorization_url") with the empty string
standing for a missing or falsy value. -/
structure InitUpstream where
  ok : Bool
  authorization_url : String
deriving DecidableEq, Repr

/-- The JSON answer of APIInitiatePaymentView.post reduced to the fields
the claims are about: HTTP status, data.reference, data.authorization_url
(empty on the 400 and 502 answers, which carry no data block). -/
structure InitResponse where
  code : Nat
  reference : String
  authorization_url : String
deriving DecidableEq, Repr

/-- The idempotency lookup of APIInitiatePaymentView.post (lines 61-65):
the first Payment of the tenant carrying the given idempotency key. -/
def findIdempotent (payments : List Payment) (svcId : Nat) (key : String) : Option Payment :=
  payments.find? fun p => decide (p.idempotency_key = key) && decide (p.serviceId = some svcId)

/-- The Payment row created by APIInitiatePaymentView.post (lines 81-98):
pending, no authorization_url yet, callback_url falling back to the
tenant's default. -/
def newPayment (svc : ServiceProduct) (req : InitiateReq) (freshRef : String) : Payment where
  reference := freshRef
  serviceId := some svc.id
  service_reference := req.service_reference
  email := req.email
  name := req.name
  amount := req.amount.getD 0
  currency := req.currency
  description := req.description
  status := PStatus.pending
  channel := ""
  fees := 0
  paystack_id := ""
  authorization_url := ""
  callback_url := if req.callback_url = "" then svc.default_callback_url else req.callback_url
  refund_status := RStatus.noRefund
  refunded_amount := 0
  paystack_refund_id := ""
  idempotency_key := req.idempotency_key
  webhook_delivered := false

/-- APIInitiatePaymentView.post (api_views.py lines 23-138): validate,
then the idempotency early return, then create the pending row, call the
upstream initiate endpoint (the trailing Nat counts those calls), and
either publish the authorization_url or answer 502 leaving the row
pending without an authorization_url. -/
def initiate (svc : ServiceProduct) (req : InitiateReq) (freshRef : String)
    (upstream : InitUpstream) (payments : List Payment) :
    InitResponse × List Payment × Nat :=
  if initiateValid svc req = false then (⟨400, "", ""⟩, payments, 0)
  else
    match (if req.idempotency_key = "" then none
           else findIdempotent payments svc.id req.idempotency_key) with
    | some existing => (⟨200, existing.reference, existing.authorization_url⟩, payments, 0)
    | none =>
        let pNew := newPayment svc req freshRef
        let created := payments ++ [pNew]
        if upstream.ok = true ∧ upstream.authorization_url ≠ "" then
          (⟨200, freshRef, upstream.authorization_url⟩,
            updateByRef created freshRef { pNew with authorization_url := upstream.authorization_url },
            1)
        else (⟨502, "", ""⟩, created, 1)

/-- APIPaymentStatusView.get (api_views.py lines 145-153): fetch the
payment by reference scoped to the authenticated tenant, answering 404
when no such row exists and 200 otherwise. -/
def statusView (payments : List Payment) (svcId : Nat) (ref : String) : Nat :=
  match payments.find? fun p =>
      decide (p.reference = ref) && decide (p.serviceId = some svcId) with
  | none => 404
  | some _ => 200

/-- APIPaymentListView.get (api_views.py lines 183-213): the rows returned
for a page — base queryset scoped to the tenant, optional status filter
(applied only for a recognised status value), optional email filter, then
offset/limit pagination with page at least 1 and per_page clamped to
[1, 100]. -/
def listView (payments : List Payment) (svcId : Nat) (statusF : Option String)
    (emailF : Option String) (page per_page : ℤ) : List Payment :=
  let qs : List Payment := payments.filter fun p => decide (p.serviceId = some svcId)
  let qs : List Payment := match statusF with
    | some s =>
        if s ≠ "" ∧ s ∈ ["pending", "success", "failed", "abandoned"] then
          qs.filter fun p => decide (p.status.toStr = s)
        else qs
    | none => qs
  let qs : List Payment := match emailF with
    | some e => qs.filter fun p => decide (p.email = e)
    | none => qs
  let pg := max page 1
  let pp := min (max per_page 1) 100
  let offset := (pg - 1) * pp
  (qs.drop offset.toNat).take pp.toNat

/-- webhook_dispatcher.py MAX_RETRIES. -/
def MAX_RETRIES : Nat := 3

/-- webhook_dispatcher.py RETRY_DELAYS (seconds of back-off between attempts). -/
def RETRY_DELAYS : List Nat := [1, 5, 25]

/-- The outcome of one outbound POST attempt at the HTTP level: a response
produced by the endpoint, carrying its status code, reason phrase and
body, or a transport failure (connection error, timeout) with no HTTP
response at all. -/
inductive AttemptOutcome where
  | http (status : ℤ) (reason : String) (body : String)
  | transportError (msg : String)
deriving DecidableEq, Repr

/-- str(exc) for the urllib HTTPError that urlopen raises on a non-2xx
response: it prints as HTTP Error code: reason. -/
def httpErrorMsg (status : ℤ) (reason : String) : String :=
  "HTTP Error " ++ toString status ++ ": " ++ reason

/-- One WebhookDeliveryLog row as dispatch_webhook leaves it (models.py
WebhookDeliveryLog; webhook_dispatcher.py lines 78-145): created before
the attempt with success false, then updated from the response, or from
the error message on a transport failure. -/
structure LogRow where
  attempt : Nat
  success : Bool
  response_status : Option ℤ
  response_body : String
  error_message : String
deriving DecidableEq, Repr

/-- The observable result of dispatch_webhook: the log rows in creation
order, the back-off sleeps performed (seconds, in order), the returned
delivery flag, and the payment row afterwards. -/
structure DispatchResult where
  logs : List LogRow
  sleeps : List Nat
  delivered : Bool
  payment : Payment
deriving DecidableEq, Repr

/-- The retry loop of dispatch_webhook (webhook_dispatcher.py lines
76-164) over the remaining attempt numbers.  Each attempt creates a log
row with the defaults success false and response_status NULL.  The
attempt calls urllib's urlopen, which returns the response object only
for a status in [200, 300) (redirects are followed internally) and raises
HTTPError for any other status: so the source's response-processing
branch — which would compute success as 200 <= status < 300 and store
response_status — runs exactly when that status test holds, marks the
payment delivered and returns; a non-2xx response, like any transport
error, lands in the except branch, which only records str(exc) as
error_message, leaving success false and response_status NULL.  A failed
attempt sleeps RETRY_DELAYS[attempt-1] when attempt < MAX_RETRIES and
continues. -/
def dispatchLoop (p : Payment) (outcomes : Nat → AttemptOutcome) :
    List Nat → List LogRow × List Nat × Bool × Payment
  | [] => ([], [], false, p)
  | a :: rest =>
      match outcomes a with
      | AttemptOutcome.http st reason body =>
          if 200 ≤ st ∧ st < 300 then
            ([⟨a, true, some st, body.take 2000, ""⟩], [], true,
              { p with webhook_delivered := true })
          else
            let sleeps := if a < MAX_RETRIES then [RETRY_DELAYS.getD (a - 1) 0] else []
            let r := dispatchLoop p outcomes rest
            (⟨a, false, none, "", (httpErrorMsg st reason).take 500⟩ :: r.1,
              sleeps ++ r.2.1, r.2.2.1, r.2.2.2)
      | AttemptOutcome.transportError msg =>
          let sleeps := if a < MAX_RETRIES then [RETRY_DELAYS.getD (a - 1) 0] else []
          let r := dispatchLoop p outcomes rest
          (⟨a, false, none, "", msg.take 500⟩ :: r.1, sleeps ++ r.2.1, r.2.2.1, r.2.2.2)

/-- dispatch_webhook (webhook_dispatcher.py lines 26-164): skip entirely
when the service has no webhook_url, otherwise run attempts 1 to
MAX_RETRIES. -/
def dispatch_webhook (svc : ServiceProduct) (p : Payment) (outcomes : Nat → AttemptOutcome) :
    DispatchResult :=
  if svc.webhook_url = "" then ⟨[], [], false, p⟩
  else
    let r := dispatchLoop p outcomes (List.range' 1 MAX_RETRIES)
    ⟨r.1, r.2.1, r.2.2.1, r.2.2.2⟩

/-- api_auth.py RATE_LIMIT_WINDOW (seconds). -/
def RATE_LIMIT_WINDOW : ℚ := 60

/-- api_auth.py RATE_LIMIT_MAX_REQUESTS (per window). -/
def RATE_LIMIT_MAX_REQUESTS : Nat := 60

/-- api_auth.py _check_rate_limit (lines 24-35): prune timestamps at or
before now - window, store the pruned bucket, refuse when it already holds
the maximum, otherwise append the current timestamp and admit.  The store
maps each rate-limit key to its timestamp bucket; keys are embedded as
character lists, matching Python's character-based slicing. -/
def check_rate_limit (store : List Char → List ℚ) (key : List Char) (now : ℚ) :
    Bool × (List Char → List ℚ) :=
  let pruned := (store key).filter fun t => decide (now - RATE_LIMIT_WINDOW < t)
  if RATE_LIMIT_MAX_REQUESTS ≤ pruned.length then
    (false, fun k => if k = key then pruned else store k)
  else
    (true, fun k => if k = key then pruned ++ [now] else store k)

/-- Outcome of ServiceAuthMixin.dispatch: the HTTP status produced by the
auth layer (200 standing for dispatch to the wrapped view) and the
rate-limit store afterwards. -/
structure AuthResult where
  code : Nat
  store : List Char → List ℚ

/-- ServiceAuthMixin.dispatch (api_auth.py lines 45-81): 401 without a
Bearer header; then the rate limit, keyed by api: plus the first 12
characters of the offered key, runs before any tenant lookup (429 on
refusal); then the key must resolve to an active tenant (401 otherwise);
then the tenant's IP allowlist (403).  The header is embedded as its
character list; the tenant table is a list of ServiceProduct rows. -/
def authDispatch (store : List Char → List ℚ) (authHeader : List Char)
    (tenants : List ServiceProduct) (clientIp : String) (now : ℚ) : AuthResult :=
  if "Bearer ".data.isPrefixOf authHeader = false then ⟨401, store⟩
  else
    let api_key := authHeader.drop 7
    let rl := check_rate_limit store ("api:".data ++ api_key.take 12) now
    if rl.1 = false then ⟨429, rl.2⟩
    else
      match tenants.find? fun s => decide (s.api_key.data = api_key) && s.is_active with
      | none => ⟨401, rl.2⟩
      | some svc =>
          if svc.allowed_ips ≠ [] ∧ clientIp ∉ svc.allowed_ips then ⟨403, rl.2⟩
          else ⟨200, rl.2⟩

/-- A concrete payment used to instantiate theorems. -/
def samplePayment : Payment where
  reference := "acoruss-abc123def456"
  serviceId := some 1
  service_reference := "o-1"
  email := "u@x.com"
  name := "U"
  amount := 2000
  currency := "KES"
  description := ""
  status := PStatus.pending
  channel := ""
  fees := 0
  paystack_id := ""
  authorization_url := ""
  callback_url := ""
  refund_status := RStatus.noRefund
  refunded_amount := 0
  paystack_refund_id := ""
  idempotency_key := ""
  webhook_delivered := false

/-- A verify response reporting success, with processor id, channel, fees. -/
def sampleSuccessResp : VerifyResp :=
  ⟨true, some ⟨some "success", "tx99", "mobile_money", 3500⟩⟩

/-- A charge.success data dict for the sample payment's reference. -/
def sampleChargeData : ChargeData :=
  ⟨"acoruss-abc123def456", "tx99", "mobile_money", 3500⟩

/-- A payment that has already reached the terminal success state. -/
def succeededPayment : Payment :=
  { samplePayment with status := PStatus.success }

/-- An upstream verify answer with falsy status and no data block. -/
def failedVerifyResp : VerifyResp := ⟨false, none⟩

/-- A concrete tenant used to instantiate theorems. -/
def sampleService : ServiceProduct :=
  ⟨7, "svc", "ak_abc", "sk_def", "https://svc.example/hook",
    "https://svc.example/done", true, [], []⟩

/-- A concrete valid initiate request carrying an idempotency key. -/
def sampleInitReq : InitiateReq :=
  ⟨"u@x.com", "U", some 2000, "KES", "Discovery", "o-1", "", "idem-abc"⟩

/-- A concrete successful upstream initiate response. -/
def sampleUp : InitUpstream := ⟨true, "https://p/abc"⟩

theorem pyTrunc_intCast (c : ℤ) : pyTrunc (c : ℚ) = c := by
  unfold pyTrunc
  rcases lt_or_le (c : ℚ) 0 with h | h
  · rw [if_pos h, Int.ceil_intCast]
  · rw [if_neg (not_lt.mpr h), Int.floor_intCast]

theorem pyRound_intCast (c : ℤ) : pyRound (c : ℚ) = c := by
  unfold pyRound
  simp only [Int.floor_intCast, sub_self]
  norm_num

/-- C9: for every Payment whose amount is an exact two-decimal value
(amount = c / 100 for an integer c, as the Decimal column guarantees),
the minor-unit integer used for upstream API calls, amount_in_kobo
(int(amount * 100)), equals round(amount * 100), the integer nearest to
one hundred times the amount. -/
theorem C9_amount_in_kobo_eq_round (p : Payment) (c : ℤ) (h : p.amount = (c : ℚ) / 100) :
    amount_in_kobo p = pyRound (p.amount * 100) := by
  have h100 : p.amount * 100 = (c : ℚ) := by
    rw [h]
    field_simp
  unfold amount_in_kobo
  rw [h100, pyTrunc_intCast, pyRound_intCast]

/-- C9 witness: the theorem applied to a concrete payment of amount 2000.00. -/
theorem C9_amount_in_kobo_eq_round_witness :
    amount_in_kobo samplePayment = pyRound (samplePayment.amount * 100) :=
  C9_amount_in_kobo_eq_round samplePayment 200000 (by norm_num [samplePayment])

/-- C1 counterexample: for a tenant-owned pending payment, a callback
verification reporting success dispatches payment.success, and a second
verification of the same payment through the inbound charge.success
webhook, arriving after that terminal transition, dispatches
payment.success again: two outbound dispatches, not at most one. -/
theorem C1_second_verification_dispatches_again_cx :
    (applyVerify samplePayment sampleSuccessResp).2 = true
    ∧ (applyVerify samplePayment sampleSuccessResp).1.status = PStatus.success
    ∧ (applyChargeSuccess (applyVerify samplePayment sampleSuccessResp).1
        sampleChargeData).2 = true := by
  decide

/-- C1 amended: each verification path dispatches payment.success exactly
when the upstream answer reports success (for the callback path) and the
payment is tenant-owned; the decision never consults the payment's prior
status, so a second verification after a terminal transition triggers an
additional outbound dispatch. -/
theorem C1_dispatch_ignores_prior_status (p : Payment) (r : VerifyResp) (d : ChargeData) :
    (applyVerify p r).2 = ((r.ok && (r.dataStatus == some "success")) && p.serviceId.isSome)
    ∧ (applyChargeSuccess p d).2 = p.serviceId.isSome := by
  constructor
  · unfold applyVerify
    split
    · next h => simp [h.1, h.2]
    · next h =>
      have hb : (r.ok && (r.dataStatus == some "success")) = false := by
        by_contra hb
        rw [Bool.not_eq_false, Bool.and_eq_true, beq_iff_eq] at hb
        exact h ⟨hb.1, hb.2⟩
      simp [hb]
  · rfl

/-- C2 counterexample: a payment whose status is success is moved back to
failed by a later callback verification whose upstream answer is not
success — the success state is not one-way terminal and the transition is
not guarded on pending. -/
theorem C2_success_overwritten_cx :
    succeededPayment.status = PStatus.success
    ∧ (applyVerify succeededPayment failedVerifyResp).1.status = PStatus.failed := by
  decide

/-- C2 amended: the status written by a verification is a function of the
upstream answer alone — success when it reports success, abandoned when it
reports abandoned, failed otherwise — applied unconditionally to whatever
status the payment had, and the webhook charge.success handler writes
success unconditionally; no pending guard exists and success is not
terminal. -/
theorem C2_status_overwritten_unconditionally (p : Payment) (r : VerifyResp) (d : ChargeData) :
    (applyVerify p r).1.status =
      (if r.ok = true ∧ r.dataStatus = some "success" then PStatus.success
       else if r.dataStatus.getD "failed" = "abandoned" then PStatus.abandoned
       else PStatus.failed)
    ∧ (applyChargeSuccess p d).1.status = PStatus.success := by
  refine ⟨?_, rfl⟩
  unfold applyVerify
  split
  · rfl
  · show (if r.dataStatus.getD "failed" = "abandoned" then PStatus.abandoned
      else PStatus.failed) = _
    split <;> rfl

theorem refundInvariant_applyRefundSuccess (p : Payment) (r : RefundResp)
    (hp : refundInvariant p)
    (h1 : 0 < (r.amountKobo : ℚ) / 100)
    (h2 : (r.amountKobo : ℚ) / 100 ≤ refundable_amount p) :
    refundInvariant (applyRefundSuccess p r) := by
  obtain ⟨hp0, hple, -, -, -⟩ := hp
  unfold refundable_amount at h2
  unfold refundInvariant applyRefundSuccess
  simp only
  rcases le_or_lt p.amount (p.refunded_amount + (r.amountKobo : ℚ) / 100) with hge | hlt
  · rw [if_pos hge]
    have heq : p.refunded_amount + (r.amountKobo : ℚ) / 100 = p.amount := by linarith
    refine ⟨by linarith, by linarith, ?_, ?_, ?_⟩
    · simp [heq]
    · simp only [heq]
      constructor
      · intro hcon
        exact absurd hcon (by decide)
      · rintro ⟨-, hcon⟩
        exact absurd hcon (lt_irrefl _)
    · constructor
      · intro hcon
        exact absurd hcon (by decide)
      · rintro ⟨hcon, -⟩
        linarith
  · rw [if_neg (not_le.mpr hlt)]
    refine ⟨by linarith, by linarith, ?_, ?_, ?_⟩
    · constructor
      · intro hcon
        exact absurd hcon (by decide)
      · intro hcon
        linarith
    · exact ⟨fun _ => ⟨by linarith, hlt⟩, fun _ => rfl⟩
    · constructor
      · intro hcon
        exact absurd hcon (by decide)
      · rintro ⟨hcon, -⟩
        linarith

theorem refundInvariant_applyRefundWebhook (p : Payment) (d : RefundEventData)
    (h1 : 0 < (d.amountKobo : ℚ) / 100)
    (h2 : (d.amountKobo : ℚ) / 100 ≤ p.amount) :
    refundInvariant (applyRefundWebhook p d).1 := by
  unfold refundInvariant applyRefundWebhook
  simp only
  rcases le_or_lt p.amount ((d.amountKobo : ℚ) / 100) with hge | hlt
  · rw [if_pos hge]
    have heq : (d.amountKobo : ℚ) / 100 = p.amount := le_antisymm h2 hge
    refine ⟨by linarith, by linarith, ?_, ?_, ?_⟩
    · simp [heq]
    · simp only [heq]
      constructor
      · intro hcon
        exact absurd hcon (by decide)
      · rintro ⟨-, hcon⟩
        exact absurd hcon (lt_irrefl _)
    · constructor
      · intro hcon
        exact absurd hcon (by decide)
      · rintro ⟨hcon, -⟩
        linarith
  · rw [if_neg (not_le.mpr hlt)]
    refine ⟨by linarith, by linarith, ?_, ?_, ?_⟩
    · constructor
      · intro hcon
        exact absurd hcon (by decide)
      · intro hcon
        linarith
    · exact ⟨fun _ => ⟨h1, hlt⟩, fun _ => rfl⟩
    · constructor
      · intro hcon
        exact absurd hcon (by decide)
      · rintro ⟨hcon, -⟩
        linarith

/-- C4 counterexample: the refund.processed handler breaks the refund-field
invariant at two concrete inputs.  Starting from a successful payment of
2000.00 satisfying the invariant, a reported refund amount of 0 minor
units yields refund_status partial with refunded_amount 0, and a reported
amount of 300000 minor units yields refunded_amount 3000.00 greater than
amount with refund_status full. -/
theorem C4_refund_webhook_breaks_invariant_cx :
    refundInvariant succeededPayment
    ∧ ¬ refundInvariant
        (applyRefundWebhook succeededPayment ⟨"acoruss-abc123def456", 0, "rf_1"⟩).1
    ∧ ¬ refundInvariant
        (applyRefundWebhook succeededPayment ⟨"acoruss-abc123def456", 300000, "rf_2"⟩).1 := by
  refine ⟨?_, ?_, ?_⟩
  · unfold refundInvariant succeededPayment samplePayment
    norm_num
    decide
  · unfold refundInvariant applyRefundWebhook succeededPayment samplePayment
    norm_num
  · unfold refundInvariant applyRefundWebhook succeededPayment samplePayment
    norm_num

/-- C4 amended: both refund-mutating code paths preserve the bounds and
the status agreement only under side conditions the code does not check —
for the API refund path, that the upstream-reported minor-unit amount is
positive and at most the remaining refundable amount; for the
refund.processed webhook path, that the reported amount is positive and at
most the payment amount (the webhook handler overwrites refunded_amount
with the reported value unvalidated, and marks full whenever the reported
value is at least the amount). -/
theorem C4_refund_ops_preserve_invariant_conditionally (p : Payment) (req : RefundReq)
    (r : RefundResp) (d : RefundEventData) (hp : refundInvariant p)
    (hr1 : 0 < (r.amountKobo : ℚ) / 100)
    (hr2 : (r.amountKobo : ℚ) / 100 ≤ refundable_amount p)
    (hd1 : 0 < (d.amountKobo : ℚ) / 100)
    (hd2 : (d.amountKobo : ℚ) / 100 ≤ p.amount) :
    refundInvariant (apiRefund p req r).payment
    ∧ refundInvariant (applyRefundWebhook p d).1 := by
  refine ⟨?_, refundInvariant_applyRefundWebhook p d hd1 hd2⟩
  unfold apiRefund
  split
  · exact hp
  · have hstep : refundInvariant (refundUpstreamStep p r).payment := by
      unfold refundUpstreamStep
      split
      · exact refundInvariant_applyRefundSuccess p r hp hr1 hr2
      · exact hp
    match req.amount with
    | some a =>
        simp only
        split
        · exact hp
        · exact hstep
    | none => exact hstep

/-- C4 witness: the amended theorem applied to a successful payment of
2000.00 with a requested and reported refund of 500.00. -/
theorem C4_refund_ops_preserve_invariant_conditionally_witness :
    refundInvariant
      (apiRefund succeededPayment ⟨some 500, "req"⟩ ⟨true, 50000, "rf"⟩).payment
    ∧ refundInvariant
        (applyRefundWebhook succeededPayment ⟨"acoruss-abc123def456", 50000, "rf"⟩).1 :=
  C4_refund_ops_preserve_invariant_conditionally succeededPayment
    ⟨some 500, "req"⟩ ⟨true, 50000, "rf"⟩ ⟨"acoruss-abc123def456", 50000, "rf"⟩
    (by unfold refundInvariant; decide)
    (by norm_num)
    (by unfold refundable_amount succeededPayment samplePayment; norm_num)
    (by norm_num)
    (by unfold succeededPayment samplePayment; norm_num)

/-- C5 counterexample: when the upstream verify call fails with a falsy
status on a pending payment, the callback verification does not keep the
prior status — it writes failed (and redirects; it does not answer 502). -/
theorem C5_failed_verify_mutates_cx :
    samplePayment.status = PStatus.pending
    ∧ (applyVerify samplePayment failedVerifyResp).1.status = PStatus.failed := by
  decide

/-- C5 amended: on a falsy upstream response, the refund API path answers
502 whenever the upstream was actually invoked and never mutates the
payment; the verify callback path, however, always mutates the payment,
overwriting its status with failed (abandoned when the upstream data block
says abandoned) and dispatching nothing. -/
theorem C5_upstream_failure_behavior (p : Payment) (req : RefundReq) (r : RefundResp)
    (v : VerifyResp) (hr : r.ok = false) (hv : v.ok = false) :
    (apiRefund p req r).payment = p
    ∧ ((apiRefund p req r).upstreamCalled = true → (apiRefund p req r).code = 502)
    ∧ (applyVerify p v).1 =
        { p with status := if v.dataStatus.getD "failed" = "abandoned"
            then PStatus.abandoned else PStatus.failed }
    ∧ (applyVerify p v).2 = false := by
  have hcond : ¬ (v.ok = true ∧ v.dataStatus = some "success") := by
    rintro ⟨h1, -⟩
    rw [hv] at h1
    exact Bool.false_ne_true h1
  have hstep : refundUpstreamStep p r = ⟨502, p, false, true⟩ := by
    unfold refundUpstreamStep
    rw [if_neg (by rw [hr]; exact Bool.false_ne_true)]
  refine ⟨?_, ?_, ?_, ?_⟩
  · unfold apiRefund
    split
    · rfl
    · match req.amount with
      | some a =>
          simp only
          split
          · rfl
          · rw [hstep]
      | none => rw [hstep]
  · unfold apiRefund
    split
    · intro hcon
      exact absurd hcon Bool.false_ne_true
    · match req.amount with
      | some a =>
          simp only
          split
          · intro hcon
            exact absurd hcon Bool.false_ne_true
          · rw [hstep]
            intro _
            rfl
      | none =>
          rw [hstep]
          intro _
          rfl
  · unfold applyVerify
    rw [if_neg hcond]
  · unfold applyVerify
    rw [if_neg hcond]

/-- C5 witness: the amended theorem applied to the sample pending payment,
a full-refund request, and falsy upstream responses. -/
theorem C5_upstream_failure_behavior_witness :
    (apiRefund samplePayment ⟨none, ""⟩ ⟨false, 0, ""⟩).payment = samplePayment
    ∧ ((apiRefund samplePayment ⟨none, ""⟩ ⟨false, 0, ""⟩).upstreamCalled = true →
        (apiRefund samplePayment ⟨none, ""⟩ ⟨false, 0, ""⟩).code = 502)
    ∧ (applyVerify samplePayment failedVerifyResp).1 =
        { samplePayment with status := if failedVerifyResp.dataStatus.getD "failed" = "abandoned"
            then PStatus.abandoned else PStatus.failed }
    ∧ (applyVerify samplePayment failedVerifyResp).2 = false :=
  C5_upstream_failure_behavior samplePayment ⟨none, ""⟩ ⟨false, 0, ""⟩ failedVerifyResp rfl rfl

/-- C7 counterexample: a request whose signature verifies but whose body is
not valid JSON is answered 400, not 200. -/
theorem C7_invalid_json_after_valid_signature_cx :
    (webhookPost true none []).1 = 400 ∧ (webhookPost true none []).1 ≠ 200 := by
  decide

/-- C7 amended: for every inbound webhook request whose signature verifies
and whose body parses as JSON, the response is 200 regardless of
downstream resolution — unknown reference, unhandled event name, or a
reference that fails to resolve; a body that is not valid JSON is answered
400 even after successful signature verification. -/
theorem C7_valid_json_always_200 (pl : WebhookPayload) (payments : List Payment) :
    (webhookPost true (some pl) payments).1 = 200 := by
  unfold webhookPost
  rw [if_neg (by decide : ¬ (true = false))]
  split
  · next heq => exact absurd heq (by simp)
  · split
    · rfl
    · split <;> rfl

theorem updateByRef_append_fresh (payments : List Payment) (x y : Payment) (ref : String)
    (hfresh : ∀ p ∈ payments, p.reference ≠ ref) (hx : x.reference = ref) :
    updateByRef (payments ++ [x]) ref y = payments ++ [y] := by
  unfold updateByRef
  rw [List.map_append]
  congr 1
  · conv_rhs => rw [← List.map_id payments]
    apply List.map_congr_left
    intro a ha
    simp [hfresh a ha]
  · simp [hx]

theorem findIdempotent_append (payments : List Payment) (x : Payment) (svcId : Nat) (key : String)
    (hnone : findIdempotent payments svcId key = none)
    (hk : x.idempotency_key = key) (hs : x.serviceId = some svcId) :
    findIdempotent (payments ++ [x]) svcId key = some x := by
  unfold findIdempotent at hnone ⊢
  rw [List.find?_append, hnone]
  simp [hk, hs]

theorem initiate_returns_existing (svc : ServiceProduct) (req : InitiateReq) (freshRef : String)
    (up : InitUpstream) (payments : List Payment) (x : Payment)
    (hvalid : initiateValid svc req = true)
    (hkey : req.idempotency_key ≠ "")
    (hfind : findIdempotent payments svc.id req.idempotency_key = some x) :
    initiate svc req freshRef up payments
      = (⟨200, x.reference, x.authorization_url⟩, payments, 0) := by
  unfold initiate
  rw [if_neg (by simp [hvalid]), if_neg hkey, hfind]

theorem initiate_creates (svc : ServiceProduct) (req : InitiateReq) (freshRef : String)
    (up : InitUpstream) (payments : List Payment)
    (hvalid : initiateValid svc req = true)
    (hkey : req.idempotency_key ≠ "")
    (hnone : findIdempotent payments svc.id req.idempotency_key = none)
    (hfresh : ∀ p ∈ payments, p.reference ≠ freshRef) :
    ∃ x : Payment,
      initiate svc req freshRef up payments
        = (⟨if up.ok = true ∧ up.authorization_url ≠ "" then 200 else 502,
            if up.ok = true ∧ up.authorization_url ≠ "" then freshRef else "",
            if up.ok = true ∧ up.authorization_url ≠ "" then up.authorization_url else ""⟩,
            payments ++ [x], 1)
      ∧ x.idempotency_key = req.idempotency_key
      ∧ x.serviceId = some svc.id
      ∧ x.reference = freshRef
      ∧ x.authorization_url
          = (if up.ok = true ∧ up.authorization_url ≠ "" then up.authorization_url else "") := by
  by_cases hup : up.ok = true ∧ up.authorization_url ≠ ""
  · refine ⟨{ newPayment svc req freshRef with authorization_url := up.authorization_url },
      ?_, rfl, rfl, rfl, by simp [hup]⟩
    unfold initiate
    rw [if_neg (by simp [hvalid]), if_neg hkey, hnone]
    simp only [if_pos hup]
    rw [updateByRef_append_fresh payments (newPayment svc req freshRef) _ freshRef hfresh rfl]
  · refine ⟨newPayment svc req freshRef, ?_, rfl, rfl, rfl, by rw [if_neg hup]; rfl⟩
    unfold initiate
    rw [if_neg (by simp [hvalid]), if_neg hkey, hnone]
    simp only [if_neg hup]

/-- C3: for a tenant request carrying a non-empty idempotency key that
passes validation, when no Payment of the tenant holds that key yet and
the generated reference is fresh, a second identical initiate request
returns the existing Payment's reference and authorization_url, leaves
the Payment table unchanged (no new row), and invokes the upstream
initiate API zero further times — the first request having invoked it
exactly once. -/
theorem C3_initiate_idempotent (svc : ServiceProduct) (req : InitiateReq)
    (ref1 ref2 : String) (up1 up2 : InitUpstream) (payments : List Payment)
    (hvalid : initiateValid svc req = true)
    (hkey : req.idempotency_key ≠ "")
    (hnone : findIdempotent payments svc.id req.idempotency_key = none)
    (hfresh : ∀ p ∈ payments, p.reference ≠ ref1) :
    (initiate svc req ref2 up2 (initiate svc req ref1 up1 payments).2.1).2.1
        = (initiate svc req ref1 up1 payments).2.1
    ∧ (initiate svc req ref2 up2 (initiate svc req ref1 up1 payments).2.1).2.2 = 0
    ∧ (initiate svc req ref1 up1 payments).2.2 = 1
    ∧ (initiate svc req ref2 up2 (initiate svc req ref1 up1 payments).2.1).1.code = 200
    ∧ (initiate svc req ref2 up2 (initiate svc req ref1 up1 payments).2.1).1.reference = ref1
    ∧ (up1.ok = true ∧ up1.authorization_url ≠ "" →
        (initiate svc req ref1 up1 payments).1.reference = ref1
        ∧ (initiate svc req ref2 up2 (initiate svc req ref1 up1 payments).2.1).1.authorization_url
            = up1.authorization_url) := by
  obtain ⟨x, heq, hk, hs, hr, hurl⟩ :=
    initiate_creates svc req ref1 up1 payments hvalid hkey hnone hfresh
  have hfind : findIdempotent (payments ++ [x]) svc.id req.idempotency_key = some x :=
    findIdempotent_append payments x svc.id req.idempotency_key hnone hk hs
  have hsecond :
      initiate svc req ref2 up2 (payments ++ [x])
        = (⟨200, x.reference, x.authorization_url⟩, payments ++ [x], 0) :=
    initiate_returns_existing svc req ref2 up2 (payments ++ [x]) x hvalid hkey hfind
  have hst : (initiate svc req ref1 up1 payments).2.1 = payments ++ [x] := by rw [heq]
  rw [hst, hsecond, heq]
  refine ⟨rfl, rfl, rfl, rfl, hr, fun hup => ⟨?_, ?_⟩⟩
  · show (if up1.ok = true ∧ up1.authorization_url ≠ "" then ref1 else "") = ref1
    rw [if_pos hup]
  · rw [hurl, if_pos hup]

/-- C3 witness: the theorem applied to a concrete tenant, a concrete
request with idempotency key idem-abc, an empty Payment table, and a
successful upstream initiate response. -/
theorem C3_initiate_idempotent_witness :
    (initiate sampleService sampleInitReq "acoruss-ddddeeeeffff" sampleUp
        (initiate sampleService sampleInitReq "acoruss-aaaabbbbcccc" sampleUp []).2.1).2.1
      = (initiate sampleService sampleInitReq "acoruss-aaaabbbbcccc" sampleUp []).2.1
    ∧ (initiate sampleService sampleInitReq "acoruss-ddddeeeeffff" sampleUp
        (initiate sampleService sampleInitReq "acoruss-aaaabbbbcccc" sampleUp []).2.1).2.2 = 0
    ∧ (initiate sampleService sampleInitReq "acoruss-aaaabbbbcccc" sampleUp []).2.2 = 1
    ∧ (initiate sampleService sampleInitReq "acoruss-ddddeeeeffff" sampleUp
        (initiate sampleService sampleInitReq "acoruss-aaaabbbbcccc" sampleUp []).2.1).1.code = 200
    ∧ (initiate sampleService sampleInitReq "acoruss-ddddeeeeffff" sampleUp
        (initiate sampleService sampleInitReq "acoruss-aaaabbbbcccc" sampleUp []).2.1).1.reference
        = "acoruss-aaaabbbbcccc"
    ∧ (sampleUp.ok = true ∧ sampleUp.authorization_url ≠ "" →
        (initiate sampleService sampleInitReq "acoruss-aaaabbbbcccc" sampleUp []).1.reference
          = "acoruss-aaaabbbbcccc"
        ∧ (initiate sampleService sampleInitReq "acoruss-ddddeeeeffff" sampleUp
            (initiate sampleService sampleInitReq "acoruss-aaaabbbbcccc" sampleUp
              []).2.1).1.authorization_url
          = sampleUp.authorization_url) :=
  C3_initiate_idempotent sampleService sampleInitReq "acoruss-aaaabbbbcccc" "acoruss-ddddeeeeffff"
    sampleUp sampleUp [] (by decide) (by decide) rfl (by simp)

theorem mem_listView_scoped (payments : List Payment) (svcId : Nat) (sF eF : Option String)
    (pg pp : ℤ) (q : Payment) (hq : q ∈ listView payments svcId sF eF pg pp) :
    q.serviceId = some svcId := by
  unfold listView at hq
  have h1 := List.mem_of_mem_drop (List.mem_of_mem_take hq)
  have h2 : q ∈ payments.filter fun p => decide (p.serviceId = some svcId) := by
    split at h1
    · have h3 := (List.mem_filter.mp h1).1
      split at h3
      · split at h3
        · exact (List.mem_filter.mp h3).1
        · exact h3
      · exact h3
    · split at h1
      · split at h1
        · exact (List.mem_filter.mp h1).1
        · exact h1
      · exact h1
  exact of_decide_eq_true (List.mem_filter.mp h2).2

/-- C6: for tenants A and B with A distinct from B, a request with B's
credentials reading one of A's payments by reference is answered 404 and
never 403 (references being globally unique), and no payment returned by
B's list endpoint — under any status filter, email filter, or pagination —
belongs to A. -/
theorem C6_cross_tenant_isolation (payments : List Payment) (A B : Nat) (p q : Payment)
    (sF eF : Option String) (pg pp : ℤ)
    (hAB : A ≠ B) (hmem : p ∈ payments) (hA : p.serviceId = some A)
    (huniq : ∀ r ∈ payments, r.reference = p.reference → r = p)
    (hq : q ∈ listView payments B sF eF pg pp) :
    statusView payments B p.reference = 404
    ∧ statusView payments B p.reference ≠ 403
    ∧ q.serviceId ≠ some A := by
  have hfind : (payments.find? fun r =>
      decide (r.reference = p.reference) && decide (r.serviceId = some B)) = none := by
    rw [List.find?_eq_none]
    intro x hx hpred
    rw [Bool.and_eq_true, decide_eq_true_eq, decide_eq_true_eq] at hpred
    have hxp : x = p := huniq x hx hpred.1
    rw [hxp, hA] at hpred
    exact hAB (Option.some.inj hpred.2)
  have h404 : statusView payments B p.reference = 404 := by
    unfold statusView
    rw [hfind]
  refine ⟨h404, by rw [h404]; decide, ?_⟩
  have hB := mem_listView_scoped payments B sF eF pg pp q hq
  rw [hB]
  intro hcon
  exact hAB (Option.some.inj hcon).symm

/-- A payment of a second tenant, used to instantiate tenant isolation. -/
def otherTenantPayment : Payment :=
  { samplePayment with
      reference := "acoruss-b1b1b1b1b1b1"
      serviceId := some 2
      email := "b@x.com" }

/-- C6 witness: the theorem applied to a two-row table holding one payment
of tenant 1 and one of tenant 2, read with tenant 2's scope. -/
theorem C6_cross_tenant_isolation_witness :
    statusView [samplePayment, otherTenantPayment] 2 samplePayment.reference = 404
    ∧ statusView [samplePayment, otherTenantPayment] 2 samplePayment.reference ≠ 403
    ∧ otherTenantPayment.serviceId ≠ some 1 :=
  C6_cross_tenant_isolation [samplePayment, otherTenantPayment] 1 2
    samplePayment otherTenantPayment none none 1 20
    (by decide) (by simp) (by decide)
    (by decide)
    (by decide)

theorem dispatch_webhook_all_http500 (svc : ServiceProduct) (p : Payment)
    (outcomes : Nat → AttemptOutcome) (reasons bodies : Nat → String)
    (hurl : svc.webhook_url ≠ "")
    (hfail : ∀ i, outcomes i = AttemptOutcome.http 500 (reasons i) (bodies i)) :
    dispatch_webhook svc p outcomes
      = ⟨[⟨1, false, none, "", (httpErrorMsg 500 (reasons 1)).take 500⟩,
          ⟨2, false, none, "", (httpErrorMsg 500 (reasons 2)).take 500⟩,
          ⟨3, false, none, "", (httpErrorMsg 500 (reasons 3)).take 500⟩],
         [1, 5], false, p⟩ := by
  have hloop : dispatchLoop p outcomes (List.range' 1 MAX_RETRIES)
      = ([⟨1, false, none, "", (httpErrorMsg 500 (reasons 1)).take 500⟩,
          ⟨2, false, none, "", (httpErrorMsg 500 (reasons 2)).take 500⟩,
          ⟨3, false, none, "", (httpErrorMsg 500 (reasons 3)).take 500⟩],
         [1, 5], false, p) := by
    have hr : List.range' 1 MAX_RETRIES = [1, 2, 3] := rfl
    have h1 := hfail 1
    have h2 := hfail 2
    have h3 := hfail 3
    rw [hr]
    norm_num [dispatchLoop, h1, h2, h3, MAX_RETRIES, RETRY_DELAYS]
  unfold dispatch_webhook
  rw [if_neg hurl, hloop]

/-- C8 counterexample: against an endpoint persistently answering HTTP
500, three log rows are created but none records response_status 500 —
urlopen raises HTTPError for a non-2xx response, so each attempt lands in
the except branch, which leaves response_status NULL and stores the
exception text (HTTP Error 500: reason) as error_message; the line of the
source that would store the status code never runs. -/
theorem C8_http_500_lands_in_except_branch_cx :
    (dispatch_webhook sampleService samplePayment
        (fun _ => AttemptOutcome.http 500 "Internal Server Error" "boom")).logs.map
        LogRow.response_status = [none, none, none]
    ∧ (dispatch_webhook sampleService samplePayment
        (fun _ => AttemptOutcome.http 500 "Internal Server Error" "boom")).logs.map
        LogRow.response_status ≠ [some 500, some 500, some 500]
    ∧ (dispatch_webhook sampleService samplePayment
        (fun _ => AttemptOutcome.http 500 "Internal Server Error" "boom")).logs.map
        LogRow.error_message
        = [(httpErrorMsg 500 "Internal Server Error").take 500,
           (httpErrorMsg 500 "Internal Server Error").take 500,
           (httpErrorMsg 500 "Internal Server Error").take 500] := by
  have h := dispatch_webhook_all_http500 sampleService samplePayment
    (fun _ => AttemptOutcome.http 500 "Internal Server Error" "boom")
    (fun _ => "Internal Server Error") (fun _ => "boom") (by decide) (fun _ => rfl)
  rw [h]
  refine ⟨by simp only [List.map_cons, List.map_nil], by decide,
    by simp only [List.map_cons, List.map_nil]⟩

/-- C8 amended: when every attempt receives an HTTP 500 response,
dispatch_webhook creates exactly 3 log rows with attempt values 1, 2, 3,
each success false, sleeps the back-off delays 1 s and 5 s only between
attempts (cumulative 6 s before the final attempt, none after it), reports
the delivery as failed, and leaves the payment untouched, so
webhook_delivered stays false; but because urlopen raises HTTPError on a
non-2xx response, each row records the failure as error_message (HTTP
Error 500: reason) with response_status left NULL, not 500. -/
theorem C8_persistent_500_error_branch (svc : ServiceProduct) (p : Payment)
    (outcomes : Nat → AttemptOutcome) (reasons bodies : Nat → String)
    (hurl : svc.webhook_url ≠ "")
    (hfail : ∀ i, outcomes i = AttemptOutcome.http 500 (reasons i) (bodies i)) :
    (dispatch_webhook svc p outcomes).logs
        = [⟨1, false, none, "", (httpErrorMsg 500 (reasons 1)).take 500⟩,
           ⟨2, false, none, "", (httpErrorMsg 500 (reasons 2)).take 500⟩,
           ⟨3, false, none, "", (httpErrorMsg 500 (reasons 3)).take 500⟩]
    ∧ (dispatch_webhook svc p outcomes).sleeps = [1, 5]
    ∧ 6 ≤ (dispatch_webhook svc p outcomes).sleeps.sum
    ∧ (dispatch_webhook svc p outcomes).delivered = false
    ∧ (dispatch_webhook svc p outcomes).payment = p := by
  have h := dispatch_webhook_all_http500 svc p outcomes reasons bodies hurl hfail
  rw [h]
  exact ⟨rfl, rfl, by norm_num, rfl, rfl⟩

/-- C8 witness: the amended theorem applied to the sample tenant (which
has a webhook URL) and attempts that all answer HTTP 500. -/
theorem C8_persistent_500_error_branch_witness :
    (dispatch_webhook sampleService samplePayment
        (fun _ => AttemptOutcome.http 500 "Internal Server Error" "boom")).logs
        = [⟨1, false, none, "", (httpErrorMsg 500 "Internal Server Error").take 500⟩,
           ⟨2, false, none, "", (httpErrorMsg 500 "Internal Server Error").take 500⟩,
           ⟨3, false, none, "", (httpErrorMsg 500 "Internal Server Error").take 500⟩]
    ∧ (dispatch_webhook sampleService samplePayment
        (fun _ => AttemptOutcome.http 500 "Internal Server Error" "boom")).sleeps = [1, 5]
    ∧ 6 ≤ (dispatch_webhook sampleService samplePayment
        (fun _ => AttemptOutcome.http 500 "Internal Server Error" "boom")).sleeps.sum
    ∧ (dispatch_webhook sampleService samplePayment
        (fun _ => AttemptOutcome.http 500 "Internal Server Error" "boom")).delivered = false
    ∧ (dispatch_webhook sampleService samplePayment
        (fun _ => AttemptOutcome.http 500 "Internal Server Error" "boom")).payment
        = samplePayment :=
  C8_persistent_500_error_branch sampleService samplePayment
    (fun _ => AttemptOutcome.http 500 "Internal Server Error" "boom")
    (fun _ => "Internal Server Error") (fun _ => "boom")
    (by decide) (fun _ => rfl)

/-- C10: for a request with a well-formed Bearer header, the sliding-window
rate limit keyed by the first 12 characters of the offered key runs and
consumes capacity before the key is validated against the tenant table:
when the pruned bucket is below capacity, the request's timestamp is
appended to that bucket even when the key resolves to no active tenant
(the request then getting 401), and when the pruned bucket already holds
the maximum, the response is 429 regardless of the tenant lookup. -/
theorem C10_rate_limit_before_key_validation (store : List Char → List ℚ)
    (tenants : List ServiceProduct) (hdr : List Char) (clientIp : String) (now : ℚ)
    (hb : "Bearer ".data.isPrefixOf hdr = true) :
    (((store ("api:".data ++ (hdr.drop 7).take 12)).filter
        fun t => decide (now - RATE_LIMIT_WINDOW < t)).length < RATE_LIMIT_MAX_REQUESTS →
      (authDispatch store hdr tenants clientIp now).store ("api:".data ++ (hdr.drop 7).take 12)
          = ((store ("api:".data ++ (hdr.drop 7).take 12)).filter
              fun t => decide (now - RATE_LIMIT_WINDOW < t)) ++ [now]
      ∧ ((tenants.find? fun s => decide (s.api_key.data = hdr.drop 7) && s.is_active) = none →
          (authDispatch store hdr tenants clientIp now).code = 401))
    ∧ (RATE_LIMIT_MAX_REQUESTS ≤ ((store ("api:".data ++ (hdr.drop 7).take 12)).filter
        fun t => decide (now - RATE_LIMIT_WINDOW < t)).length →
        (authDispatch store hdr tenants clientIp now).code = 429) := by
  have hne : ¬ ("Bearer ".data.isPrefixOf hdr = false) := by simp [hb]
  constructor
  · intro hlt
    constructor
    · simp only [authDispatch]
      rw [if_neg hne]
      generalize hdr.drop 7 = key at hlt ⊢
      generalize "api:".data ++ key.take 12 = bucket at hlt ⊢
      have hrl : check_rate_limit store bucket now
          = (true, fun k => if k = bucket then
              ((store bucket).filter fun t => decide (now - RATE_LIMIT_WINDOW < t)) ++ [now]
            else store k) := by
        unfold check_rate_limit
        rw [if_neg (not_le.mpr hlt)]
      rw [hrl]
      rw [if_neg (by simp)]
      rcases hf : tenants.find? (fun s => decide (s.api_key.data = key) && s.is_active)
        with - | svc
      · rw [hf]
        exact if_pos rfl
      · rw [hf, apply_ite AuthResult.store, ite_self]
        exact if_pos rfl
    · intro hnone
      simp only [authDispatch]
      rw [if_neg hne]
      generalize hdr.drop 7 = key at hlt hnone ⊢
      generalize "api:".data ++ key.take 12 = bucket at hlt ⊢
      have hrl : check_rate_limit store bucket now
          = (true, fun k => if k = bucket then
              ((store bucket).filter fun t => decide (now - RATE_LIMIT_WINDOW < t)) ++ [now]
            else store k) := by
        unfold check_rate_limit
        rw [if_neg (not_le.mpr hlt)]
      rw [hrl]
      rw [if_neg (by simp), hnone]
  · intro hge
    simp only [authDispatch]
    rw [if_neg hne]
    generalize hdr.drop 7 = key at hge ⊢
    generalize "api:".data ++ key.take 12 = bucket at hge ⊢
    have hrl : check_rate_limit store bucket now
        = (false, fun k => if k = bucket then
            (store bucket).filter fun t => decide (now - RATE_LIMIT_WINDOW < t)
          else store k) := by
      unfold check_rate_limit
      rw [if_pos hge]
    rw [hrl]
    rw [if_pos (by simp)]

/-- C10 witness: the theorem applied to an empty store, an empty tenant
table (so the offered key is unrecognized), and a request at time 0
carrying a well-formed Bearer header. -/
theorem C10_rate_limit_before_key_validation_witness :
    ((([] : List ℚ).filter (fun t =>
        decide ((0 : ℚ) - RATE_LIMIT_WINDOW < t))).length < RATE_LIMIT_MAX_REQUESTS →
      (authDispatch (fun _ => []) "Bearer ak_unknown000".data [] "203.0.113.9" 0).store
          ("api:".data ++ ("Bearer ak_unknown000".data.drop 7).take 12)
        = ([] : List ℚ).filter (fun t => decide ((0 : ℚ) - RATE_LIMIT_WINDOW < t)) ++ [0]
      ∧ ((([] : List ServiceProduct).find? fun s =>
            decide (s.api_key.data = "Bearer ak_unknown000".data.drop 7) && s.is_active) = none →
          (authDispatch (fun _ => []) "Bearer ak_unknown000".data [] "203.0.113.9" 0).code = 401))
    ∧ (RATE_LIMIT_MAX_REQUESTS ≤ (([] : List ℚ).filter (fun t =>
        decide ((0 : ℚ) - RATE_LIMIT_WINDOW < t))).length →
        (authDispatch (fun _ => []) "Bearer ak_unknown000".data [] "203.0.113.9" 0).code = 429) :=
  C10_rate_limit_before_key_validation (fun _ => ([] : List ℚ)) []
    "Bearer ak_unknown000".data "203.0.113.9" 0 (by decide)
